import Mathlib

/-!
Shallow embedding of the KIS trading-operations facade (src/main.py) and
verification of its specification claims.

Modelling conventions:
* Python `Decimal` values (quantities, cash amounts, prices coming from the
  brokerage client) are modelled as `ℚ` (exact arithmetic, as the spec demands).
* A raw backend response field that the code reads through a `hasattr` guard or
  an `is not None` check is modelled as an `Option`; a plain (unguarded)
  attribute access on an `Option` field is modelled by `getattr_`, which fails
  exactly when the field is absent (Python raises `AttributeError`, which the
  facade catches and re-surfaces as a tool error).
* Each facade operation is a pure function of the snapshot data the brokerage
  client would return for the calls the operation makes; fallible operations
  return `Except Err`.
-/

namespace KisMcp

/-- Error taxonomy of a facade call: a validation rejection raised by the
invocation layer before the handler body runs, or a tool error raised by the
handler itself. -/
inductive Err where
  | validation (msg : String)
  | tool (msg : String)
deriving DecidableEq, Repr

/-- Python attribute access on a possibly-absent field: raises
(`AttributeError`) when the field is absent. -/
def getattr_ {α : Type} (field : String) : Option α → Except Err α
  | some a => Except.ok a
  | none => Except.error (Err.tool ("AttributeError: " ++ field))

/-- One holding in the balance snapshot (`KisBalanceStock`). -/
structure BalanceStock where
  name : String
  symbol : String
  quantity : ℚ
  purchase_price : ℚ
  current_price : ℚ
  current_amount : ℚ
  profit : ℚ
  profit_rate : ℚ
deriving DecidableEq, Repr

/-- The balance snapshot (`KisBalance`) as read by the facade. -/
structure Balance where
  amount : ℚ
  total : ℚ
  withdrawable_amount : ℚ
  current_amount : ℚ
  stocks : List BalanceStock
deriving DecidableEq, Repr

/-- One pending order in the pending-orders snapshot (`KisOrder` as yielded by
`KisPendingOrders`).  `order_price` and `time_kst` are the two fields the code
reads through a guard, so they are `Option`; `pending` is the flag consulted by
cancellation. -/
structure PendingOrder where
  number : String
  symbol : String
  type : String
  qty : ℚ
  order_price : Option ℚ
  time_kst : Option String
  pending_qty : ℚ
  pending : Bool
deriving DecidableEq, Repr

/-- Output row of `get_account_balance` for one holding. -/
structure HoldingOut where
  item_name : String
  quantity : ℚ
  average_purchase_price : ℚ
  current_price : ℚ
  evaluation_amount : ℚ
  profit_loss : ℚ
  profit_loss_rate : ℚ
deriving DecidableEq, Repr

/-- Output of `get_account_balance`. -/
structure BalanceOut where
  total_evaluation_amount : ℚ
  net_asset_amount : ℚ
  cash_balance : ℚ
  securities_evaluation_amount : ℚ
  holdings : List HoldingOut
deriving DecidableEq, Repr

/-- The holding row built by the loop body of `get_account_balance`. -/
def holdingOut (s : BalanceStock) : HoldingOut :=
  { item_name := s.name
    quantity := s.quantity
    average_purchase_price := s.purchase_price
    current_price := s.current_price
    evaluation_amount := s.current_amount
    profit_loss := s.profit
    profit_loss_rate := s.profit_rate }

/-- `get_account_balance`: copies the balance snapshot into the output
contract, listing every holding. -/
def get_account_balance (balance : Balance) : BalanceOut :=
  { total_evaluation_amount := balance.amount
    net_asset_amount := balance.total
    cash_balance := balance.withdrawable_amount
    securities_evaluation_amount := balance.current_amount
    holdings := balance.stocks.map holdingOut }

/-- Output of `get_sellable_quantity`. -/
structure SellableOut where
  stock_code : String
  total_quantity : ℚ
  sellable_quantity : ℚ
  pending_sell_quantity : ℚ
deriving DecidableEq, Repr

/-- The first loop of `get_sellable_quantity`: scan `balance.stocks` for the
first holding whose `symbol` equals the code and take its quantity (`break`),
defaulting to `0` when no holding matches. -/
def totalQuantityOf (stocks : List BalanceStock) (stock_code : String) : ℚ :=
  match stocks.find? (fun s => s.symbol == stock_code) with
  | some s => s.quantity
  | none => 0

/-- The second loop of `get_sellable_quantity`: accumulate `pending_qty` over
pending orders whose `symbol` equals the code and whose `type` is `"sell"`. -/
def pendingSellQuantityOf (pend : List PendingOrder) (stock_code : String) : ℚ :=
  pend.foldl
    (fun acc o =>
      if o.symbol == stock_code && o.type == "sell" then acc + o.pending_qty
      else acc)
    0

/-- `get_sellable_quantity`: held quantity minus pending sell quantity, clamped
at zero in the returned `sellable_quantity`. -/
def get_sellable_quantity (balance : Balance) (pend : List PendingOrder)
    (stock_code : String) : SellableOut :=
  let total_quantity := totalQuantityOf balance.stocks stock_code
  let pending_sell_quantity := pendingSellQuantityOf pend stock_code
  let sellable_quantity := total_quantity - pending_sell_quantity
  { stock_code := stock_code
    total_quantity := total_quantity
    sellable_quantity := max 0 sellable_quantity
    pending_sell_quantity := pending_sell_quantity }

/-- Python `int(...)` applied to an exact `Decimal` value: truncation toward
zero. -/
def pyInt (q : ℚ) : Int :=
  if 0 ≤ q then ⌊q⌋ else ⌈q⌉

/-- Output of `get_buyable_amount`. -/
structure BuyableOut where
  stock_code : String
  buyable_cash : ℚ
  buyable_quantity : Int
  reference_price : Int
  max_buyable_amount : ℚ
deriving DecidableEq, Repr

/-- `get_buyable_amount`: withdrawable cash divided by the reference price,
truncated to an integer share count; the reference price is the supplied price
when present, else the current quote price truncated to int; a non-positive
reference price yields quantity `0`.  `available_cash` is the balance's
`withdrawable_amount`; `quote_price` is the current quote's price (fetched only
when `price` is absent). -/
def get_buyable_amount (stock_code : String) (price : Option Int)
    (available_cash : ℚ) (quote_price : ℚ) : BuyableOut :=
  let refPrice : Int :=
    match price with
    | some p => p
    | none => pyInt quote_price
  let buyable_quantity : Int :=
    if 0 < refPrice then pyInt (available_cash / (refPrice : ℚ)) else 0
  { stock_code := stock_code
    buyable_cash := available_cash
    buyable_quantity := buyable_quantity
    reference_price := refPrice
    max_buyable_amount := available_cash }

/-- Order side (`Literal["buy", "sell"]` of `place_stock_order`). -/
inductive Side where
  | buy
  | sell
deriving DecidableEq, Repr

/-- Order method (`Literal["limit", "market"]` of `place_stock_order`). -/
inductive Method where
  | limit
  | market
deriving DecidableEq, Repr

/-- The submission request handed to the brokerage client: `stock.buy`/
`stock.sell` with `price := some p` (limit-priced submission) or without a
price (`price := none`, market submission). -/
structure OrderRequest where
  side : Side
  qty : Int
  price : Option Int
deriving DecidableEq, Repr

/-- The dispatch logic of `place_stock_order`: inside each side's branch, a
limit method with a present, strictly positive price submits limit-priced;
every other combination submits without a price (market). -/
def dispatchOrder (order_type : Side) (quantity : Int) (price : Option Int)
    (order_method : Method) : OrderRequest :=
  match order_type with
  | Side.buy =>
    match order_method, price with
    | Method.limit, some p =>
      if 0 < p then { side := Side.buy, qty := quantity, price := some p }
      else { side := Side.buy, qty := quantity, price := none }
    | _, _ => { side := Side.buy, qty := quantity, price := none }
  | Side.sell =>
    match order_method, price with
    | Method.limit, some p =>
      if 0 < p then { side := Side.sell, qty := quantity, price := some p }
      else { side := Side.sell, qty := quantity, price := none }
    | _, _ => { side := Side.sell, qty := quantity, price := none }

/-- What the brokerage client reports for a submission (`KisOrder`): the
assigned order number (empty when none was obtained) and the pending flag. -/
structure KisOrderResult where
  number : String
  pending : Bool
deriving DecidableEq, Repr

/-- The `price` field of the order result: the supplied price (an int) or the
string `"market"`. -/
inductive PriceField where
  | val (p : Int)
  | market
deriving DecidableEq, Repr

/-- Output of `place_stock_order`. -/
structure OrderOut where
  order_id : String
  stock_code : String
  order_type : Side
  order_method : Method
  quantity : Int
  price : PriceField
  status : String
  message : String
deriving DecidableEq, Repr

/-- Message reported when a non-empty order number was obtained. -/
def submitOkMsg : String := "주문이 성공적으로 제출되었습니다."

/-- Message reported when the order number is absent or empty (submission
failure signal). -/
def submitFailMsg : String := "주문 제출에 실패했거나 주문번호를 받지 못했습니다."

/-- `place_stock_order`: dispatch the request, read the brokerage client's
result for it, and normalize it into the output contract.  `submit` is the
brokerage client's response function for a submission request. -/
def place_stock_order (stock_code : String) (order_type : Side) (quantity : Int)
    (price : Option Int) (order_method : Method)
    (submit : OrderRequest → KisOrderResult) : OrderOut :=
  let order_result := submit (dispatchOrder order_type quantity price order_method)
  { order_id := order_result.number
    stock_code := stock_code
    order_type := order_type
    order_method := order_method
    quantity := quantity
    price :=
      match order_method, price with
      | Method.limit, some p => PriceField.val p
      | _, _ => PriceField.market
    status := if order_result.pending then "pending" else "executed_or_failed_or_unknown"
    message := if order_result.number = "" then submitFailMsg else submitOkMsg }

/-- Output of `cancel_stock_order` on the non-error paths. -/
structure CancelOut where
  order_id : String
  status : String
  message : String
deriving DecidableEq, Repr

/-- `cancel_stock_order`: scan the freshly fetched pending-order snapshot for
the first order whose number equals `order_id` (the loop with `break`); cancel
it when still pending, report `not_cancellable` when found but not pending, and
raise a not-found tool error otherwise.  The second component records the order
number `cancel` was issued on, `none` when no cancel call was made. -/
def cancel_stock_order (pend : List PendingOrder) (order_id : String) :
    Except Err CancelOut × Option String :=
  match pend.find? (fun o => o.number == order_id) with
  | some target =>
    if target.pending then
      (Except.ok
        { order_id := order_id
          status := "cancelled"
          message := "주문번호 " ++ order_id ++ " 취소 요청이 성공적으로 제출되었습니다." },
        some target.number)
    else
      (Except.ok
        { order_id := order_id
          status := "not_cancellable"
          message := "주문번호 " ++ order_id ++ "은(는) 이미 체결되었거나 취소할 수 없는 상태입니다." },
        none)
  | none =>
    (Except.error (Err.tool
        ("주문 " ++ order_id ++ " 취소 중 오류가 발생했습니다: 주문번호 "
          ++ order_id ++ "를 찾을 수 없습니다. 주문번호를 확인해 주세요.")),
      none)

/-- Output of `get_market_status`. -/
structure MarketStatusOut where
  is_trading_day : Bool
  market_status : String
  market_open_time : String
  market_close_time : String
  premarket_start : String
  aftermarket_end : String
deriving DecidableEq, Repr

/-- `get_market_status` as a function of the local KST weekday
(`datetime.weekday()`: Monday = 0, ..., Sunday = 6) and the time of day in
seconds since midnight.  Weekend means weekday ≥ 5; the fixed boundaries are
08:30, 09:00, 15:30 and 18:00. -/
def get_market_status (weekday : Nat) (tod : Nat) : MarketStatusOut :=
  let premarket_start_s : Nat := 8 * 3600 + 30 * 60
  let market_open_s : Nat := 9 * 3600
  let market_close_s : Nat := 15 * 3600 + 30 * 60
  let aftermarket_end_s : Nat := 18 * 3600
  let is_weekend : Bool := decide (5 ≤ weekday)
  let is_trading_day : Bool := !is_weekend
  let market_status : String :=
    if is_trading_day = false then "closed"
    else if tod < premarket_start_s then "closed"
    else if premarket_start_s ≤ tod ∧ tod < market_open_s then "premarket"
    else if market_open_s ≤ tod ∧ tod < market_close_s then "open"
    else if market_close_s ≤ tod ∧ tod < aftermarket_end_s then "aftermarket"
    else "closed"
  { is_trading_day := is_trading_day
    market_status := market_status
    market_open_time := "09:00"
    market_close_time := "15:30"
    premarket_start := "08:30"
    aftermarket_end := "18:00" }

/-- A raw quote response (`KisQuote`): every field the handler reads, each
possibly absent.  (`open_price` models the `open` attribute.) -/
structure RawQuote where
  price : Option ℚ
  change : Option ℚ
  rate : Option ℚ
  volume : Option ℚ
  amount : Option ℚ
  market_cap : Option ℚ
  open_price : Option ℚ
  high : Option ℚ
  low : Option ℚ
deriving DecidableEq, Repr

/-- Output of `get_stock_quote`. -/
structure QuoteOut where
  stock_code : String
  current_price : ℚ
  change : ℚ
  change_percent : ℚ
  volume : ℚ
  trading_value : ℚ
  market_cap : ℚ
  open_price : ℚ
  high_price : ℚ
  low_price : ℚ
deriving DecidableEq, Repr

/-- `get_stock_quote`: copies the quote fields into the output contract with
plain (unguarded) attribute accesses, in source order. -/
def get_stock_quote (stock_code : String) (quote : RawQuote) : Except Err QuoteOut := do
  let price ← getattr_ "price" quote.price
  let change ← getattr_ "change" quote.change
  let rate ← getattr_ "rate" quote.rate
  let volume ← getattr_ "volume" quote.volume
  let amount ← getattr_ "amount" quote.amount
  let market_cap ← getattr_ "market_cap" quote.market_cap
  let openv ← getattr_ "open" quote.open_price
  let high ← getattr_ "high" quote.high
  let low ← getattr_ "low" quote.low
  Except.ok
    { stock_code := stock_code
      current_price := price
      change := change
      change_percent := rate
      volume := volume
      trading_value := amount
      market_cap := market_cap
      open_price := openv
      high_price := high
      low_price := low }

/-- A raw orderbook level (ask or bid), with possibly absent price/volume. -/
structure RawOrderbookEntry where
  price : Option ℚ
  volume : Option ℚ
deriving DecidableEq, Repr

/-- A raw orderbook response; `asks`/`bids` possibly absent as attributes. -/
structure RawOrderbook where
  asks : Option (List RawOrderbookEntry)
  bids : Option (List RawOrderbookEntry)
deriving DecidableEq, Repr

/-- One orderbook level of the output contract. -/
structure OrderbookEntryOut where
  price : ℚ
  quantity : ℚ
deriving DecidableEq, Repr

/-- Output of `get_stock_orderbook`. -/
structure OrderbookOut where
  stock_code : String
  asks : List OrderbookEntryOut
  bids : List OrderbookEntryOut
deriving DecidableEq, Repr

/-- The loop body of `get_stock_orderbook`: guarded accesses defaulting a
missing price or volume to `0`. -/
def obEntry (e : RawOrderbookEntry) : OrderbookEntryOut :=
  { price := e.price.getD 0
    quantity := e.volume.getD 0 }

/-- `get_stock_orderbook`: every access is `hasattr`-guarded, so a missing
`asks`/`bids` attribute yields an empty list and missing level fields default
to `0`. -/
def get_stock_orderbook (stock_code : String) (ob : RawOrderbook) : OrderbookOut :=
  { stock_code := stock_code
    asks := (ob.asks.getD []).map obEntry
    bids := (ob.bids.getD []).map obEntry }

/-- One row of the `get_pending_orders` output. -/
structure PendingOut where
  order_id : String
  stock_code : String
  order_type : String
  quantity : ℚ
  pending_quantity : ℚ
  price : ℚ
  order_time : String
deriving DecidableEq, Repr

/-- The loop body of `get_pending_orders`: `order_price` defaults to `0` when
`None`; `time_kst` defaults to `"N/A"` when absent or `None`. -/
def pendingOrderOut (o : PendingOrder) : PendingOut :=
  { order_id := o.number
    stock_code := o.symbol
    order_type := o.type
    quantity := o.qty
    pending_quantity := o.pending_qty
    price := o.order_price.getD 0
    order_time :=
      match o.time_kst with
      | some t => t
      | none => "N/A" }

/-- `get_pending_orders`: lists every pending order of the snapshot. -/
def get_pending_orders (pend : List PendingOrder) : List PendingOut :=
  pend.map pendingOrderOut

/-- One raw daily-execution row, every read field possibly absent. -/
structure RawExecution where
  type : Option String
  executed_qty : Option ℚ
  qty : Option ℚ
  price : Option ℚ
deriving DecidableEq, Repr

/-- One row of the `get_daily_executions` output. -/
structure ExecutionOut where
  order_type : String
  executed_qty : ℚ
  qty : ℚ
  price : ℚ
deriving DecidableEq, Repr

/-- The loop body of `get_daily_executions`: `hasattr`-guarded accesses with
defaults `"N/A"` / `0`. -/
def executionOut (e : RawExecution) : ExecutionOut :=
  { order_type := e.type.getD "N/A"
    executed_qty := e.executed_qty.getD 0
    qty := e.qty.getD 0
    price := e.price.getD 0 }

/-- `get_daily_executions` body: lists every execution of the day. -/
def get_daily_executions (execs : List RawExecution) : List ExecutionOut :=
  execs.map executionOut

/-- The declared instrument-code constraint (pydantic `pattern` `6` digits):
exactly six digit characters. -/
def validStockCode (s : String) : Bool :=
  s.length == 6 && s.data.all (fun c => c.isDigit)

/-- The declared date constraint (pydantic ISO `YYYY-MM-DD` shape pattern). -/
def validDateStr (s : String) : Bool :=
  match s.data with
  | [y1, y2, y3, y4, s1, m1, m2, s2, d1, d2] =>
    y1.isDigit && y2.isDigit && y3.isDigit && y4.isDigit && s1 == '-'
      && m1.isDigit && m2.isDigit && s2 == '-' && d1.isDigit && d2.isDigit
  | _ => false

/-- A call issued to the brokerage client by a handler body. -/
inductive ClientCall where
  | balanceCall
  | quoteCall (stock_code : String)
  | pendingOrdersCall
  | submitCall (stock_code : String) (req : OrderRequest)
  | cancelCall (number : String)
  | dailyOrdersCall (date : String)
deriving DecidableEq, Repr

/-- Validation message used for every invocation-layer rejection. -/
def validationMsg : String := "input validation failed"

/-- The invocation layer around `get_stock_quote`: the declared constraints are
checked before the handler body runs; a malformed code is rejected with a
validation error and no brokerage-client call. -/
def run_get_stock_quote (stock_code : String) (quote : RawQuote) :
    Except Err QuoteOut × List ClientCall :=
  if validStockCode stock_code then
    (get_stock_quote stock_code quote, [ClientCall.quoteCall stock_code])
  else
    (Except.error (Err.validation validationMsg), [])

/-- The invocation layer around `place_stock_order`: code pattern, `quantity >
0` and `price ≥ 0` (when present) are checked before the handler body runs. -/
def run_place_stock_order (stock_code : String) (order_type : Side)
    (quantity : Int) (price : Option Int) (order_method : Method)
    (submit : OrderRequest → KisOrderResult) :
    Except Err OrderOut × List ClientCall :=
  if validStockCode stock_code && decide (0 < quantity)
      && (match price with
          | some p => decide (0 ≤ p)
          | none => true) then
    (Except.ok (place_stock_order stock_code order_type quantity price order_method submit),
      [ClientCall.submitCall stock_code (dispatchOrder order_type quantity price order_method)])
  else
    (Except.error (Err.validation validationMsg), [])

/-- The invocation layer around `get_daily_executions`: the date shape is
checked before the handler body runs. -/
def run_get_daily_executions (date : String) (execs : List RawExecution) :
    Except Err (List ExecutionOut) × List ClientCall :=
  if validDateStr date then
    (Except.ok (get_daily_executions execs), [ClientCall.dailyOrdersCall date])
  else
    (Except.error (Err.validation validationMsg), [])

/-- The claim's `held` value: quantity of the balance holding matching the
code, `0` when no holding matches. -/
def heldSpec (stocks : List BalanceStock) (stock_code : String) : ℚ :=
  match stocks.find? (fun s => s.symbol == stock_code) with
  | some s => s.quantity
  | none => 0

/-- The claim's `pendingSell` value: the sum of `pending_qty` over pending
orders with side sell and matching instrument code. -/
def pendingSellSpec (pend : List PendingOrder) (stock_code : String) : ℚ :=
  ((pend.filter fun o => o.symbol == stock_code && o.type == "sell").map
    (fun o => o.pending_qty)).sum

lemma foldl_pending_qty (stock_code : String) (l : List PendingOrder) (init : ℚ) :
    l.foldl
      (fun acc o =>
        if o.symbol == stock_code && o.type == "sell" then acc + o.pending_qty
        else acc)
      init
      = init + ((l.filter fun o => o.symbol == stock_code && o.type == "sell").map
          (fun o => o.pending_qty)).sum := by
  induction l generalizing init with
  | nil => simp
  | cons a l ih =>
    by_cases h : (a.symbol == stock_code && a.type == "sell") = true
    · simp only [List.foldl_cons, h, if_pos, List.filter_cons, List.map_cons,
        List.sum_cons, ih]
      ring
    · simp only [List.foldl_cons, List.filter_cons, h, ih]
      simp [h]

lemma pendingSellQuantityOf_eq_spec (pend : List PendingOrder) (stock_code : String) :
    pendingSellQuantityOf pend stock_code = pendingSellSpec pend stock_code := by
  unfold pendingSellQuantityOf pendingSellSpec
  simpa using foldl_pending_qty stock_code pend 0

/-- C1: for every snapshot pair and every instrument code,
`get_sellable_quantity` returns `sellable_quantity = max 0 (held − pendingSell)`
where `held` is the matching holding's quantity (0 when none matches) and
`pendingSell` is the sum of `pending_qty` over pending sell orders on the code;
in particular the result is `0` whenever `pendingSell > held`. -/
theorem C1_sellable_quantity (balance : Balance) (pend : List PendingOrder)
    (stock_code : String) :
    (get_sellable_quantity balance pend stock_code).sellable_quantity
        = max 0 (heldSpec balance.stocks stock_code
            - pendingSellSpec pend stock_code)
      ∧ (heldSpec balance.stocks stock_code < pendingSellSpec pend stock_code →
          (get_sellable_quantity balance pend stock_code).sellable_quantity = 0) := by
  have htq : totalQuantityOf balance.stocks stock_code
      = heldSpec balance.stocks stock_code := rfl
  have hps := pendingSellQuantityOf_eq_spec pend stock_code
  constructor
  · simp [get_sellable_quantity, htq, hps]
  · intro hlt
    simp only [get_sellable_quantity, htq, hps]
    have : heldSpec balance.stocks stock_code - pendingSellSpec pend stock_code ≤ 0 := by
      linarith
    simpa [max_eq_left] using max_eq_left this

theorem C1_witness :
    (get_sellable_quantity
        { amount := 0, total := 0, withdrawable_amount := 0, current_amount := 0,
          stocks := [] }
        [{ number := "A1", symbol := "005930", type := "sell", qty := 5,
           order_price := some 100, time_kst := none, pending_qty := 5,
           pending := true }]
        "005930").sellable_quantity = 0 :=
  (C1_sellable_quantity _ _ _).2 (by norm_num [heldSpec, pendingSellSpec])

lemma pyInt_eq_floor {q : ℚ} (h : 0 ≤ q) : pyInt q = ⌊q⌋ := by
  simp [pyInt, h]

/-- C2 (corrected): the claim's `floor(cash / referencePrice)` fails on the
code for negative withdrawable cash: the code truncates the quotient toward
zero, so at cash `-1` and price `2` it returns `0` while the claim's floor is
`-1`. -/
theorem C2_counterexample :
    (get_buyable_amount "005930" (some 2) (-1 : ℚ) 0).buyable_quantity
      ≠ ⌊((-1 : ℚ) / ((2 : Int) : ℚ))⌋ := by
  have h1 : (get_buyable_amount "005930" (some 2) (-1 : ℚ) 0).buyable_quantity = 0 := by
    norm_num [get_buyable_amount, pyInt]
  have h2 : (⌊((-1 : ℚ) / ((2 : Int) : ℚ))⌋ : ℤ) = -1 := by norm_num
  rw [h1, h2]
  decide

/-- C2 (amended): `get_buyable_amount` uses the supplied price as reference
price, or the current quote price (truncated to int) when absent; a
non-positive reference price yields quantity `0` (division by zero is a
defined `0`, not an error); a positive reference price yields the quotient
`cash / referencePrice` truncated toward zero, which equals
`floor(cash / referencePrice)` whenever the cash is non-negative. -/
theorem C2_buyable_amount (stock_code : String) (price : Option Int)
    (available_cash quote_price : ℚ) :
    ((get_buyable_amount stock_code none available_cash quote_price).reference_price
        = pyInt quote_price)
  ∧ (∀ p : Int,
      (get_buyable_amount stock_code (some p) available_cash quote_price).reference_price
        = p)
  ∧ ((get_buyable_amount stock_code price available_cash quote_price).reference_price ≤ 0 →
      (get_buyable_amount stock_code price available_cash quote_price).buyable_quantity
        = 0)
  ∧ (0 < (get_buyable_amount stock_code price available_cash quote_price).reference_price →
      (get_buyable_amount stock_code price available_cash quote_price).buyable_quantity
        = pyInt (available_cash /
            ((get_buyable_amount stock_code price available_cash quote_price).reference_price : ℚ)))
  ∧ (0 ≤ available_cash →
      0 < (get_buyable_amount stock_code price available_cash quote_price).reference_price →
      (get_buyable_amount stock_code price available_cash quote_price).buyable_quantity
        = ⌊available_cash /
            ((get_buyable_amount stock_code price available_cash quote_price).reference_price : ℚ)⌋) := by
  refine ⟨rfl, fun p => rfl, ?_, ?_, ?_⟩
  · intro h
    simp only [get_buyable_amount] at h ⊢
    rw [if_neg (by omega)]
  · intro h
    simp only [get_buyable_amount] at h ⊢
    rw [if_pos h]
  · intro hcash h
    simp only [get_buyable_amount] at h ⊢
    rw [if_pos h, pyInt_eq_floor]
    exact div_nonneg hcash (by exact_mod_cast h.le)

theorem C2_witness :
    (get_buyable_amount "005930" (some 3) (10 : ℚ) 0).buyable_quantity
      = ⌊(10 : ℚ) /
          ((get_buyable_amount "005930" (some 3) (10 : ℚ) 0).reference_price : ℚ)⌋ :=
  (C2_buyable_amount "005930" (some 3) 10 0).2.2.2.2 (by decide) (by decide)

/-- C3: a `limit` submission with a present, strictly positive price is
dispatched limit-priced; with an absent or non-positive price it is dispatched
as a market submission (no price), not rejected. -/
theorem C3_limit_dispatch (order_type : Side) (quantity : Int) (p : Int) :
    (0 < p → dispatchOrder order_type quantity (some p) Method.limit
        = { side := order_type, qty := quantity, price := some p })
  ∧ (p ≤ 0 → dispatchOrder order_type quantity (some p) Method.limit
        = { side := order_type, qty := quantity, price := none })
  ∧ dispatchOrder order_type quantity none Method.limit
      = { side := order_type, qty := quantity, price := none } := by
  refine ⟨fun h => ?_, fun h => ?_, ?_⟩
  · cases order_type <;> simp [dispatchOrder, h]
  · cases order_type <;> simp [dispatchOrder, not_lt.mpr h]
  · cases order_type <;> simp [dispatchOrder]

theorem C3_witness :
    dispatchOrder Side.buy 10 (some 50000) Method.limit
        = { side := Side.buy, qty := 10, price := some 50000 }
  ∧ dispatchOrder Side.buy 10 (some 0) Method.limit
        = { side := Side.buy, qty := 10, price := none } :=
  ⟨(C3_limit_dispatch Side.buy 10 50000).1 (by decide),
    (C3_limit_dispatch Side.buy 10 0).2.1 (by decide)⟩

/-- C4: cancellation resolves the target as the first pending-snapshot order
whose number equals the given id; found and pending ⇒ a cancel is issued and
the status is `cancelled`; found but not pending ⇒ status `not_cancellable`
with no error and no cancel; not found ⇒ a not-found tool error, never a
silent no-op (and no cancel is issued). -/
theorem C4_cancel_order (pend : List PendingOrder) (order_id : String) :
    (∀ o, pend.find? (fun x => x.number == order_id) = some o →
      (o.pending = true →
        (∃ out, (cancel_stock_order pend order_id).1 = Except.ok out
            ∧ out.status = "cancelled")
          ∧ (cancel_stock_order pend order_id).2 = some o.number)
      ∧ (o.pending = false →
        (∃ out, (cancel_stock_order pend order_id).1 = Except.ok out
            ∧ out.status = "not_cancellable")
          ∧ (cancel_stock_order pend order_id).2 = none))
  ∧ (pend.find? (fun x => x.number == order_id) = none →
      (∃ msg, (cancel_stock_order pend order_id).1 = Except.error (Err.tool msg))
        ∧ (cancel_stock_order pend order_id).2 = none) := by
  constructor
  · intro o hfind
    constructor
    · intro hp
      simp only [cancel_stock_order, hfind, hp, if_true]
      exact ⟨⟨_, rfl, rfl⟩, trivial⟩
    · intro hp
      simp only [cancel_stock_order, hfind, hp, Bool.false_eq_true, if_false]
      exact ⟨⟨_, rfl, rfl⟩, trivial⟩
  · intro hfind
    simp only [cancel_stock_order, hfind]
    exact ⟨⟨_, rfl⟩, trivial⟩

theorem C4_witness :
    (cancel_stock_order
        [{ number := "ORD1", symbol := "005930", type := "buy", qty := 10,
           order_price := some 50000, time_kst := none, pending_qty := 10,
           pending := true }]
        "ORD1").2 = some "ORD1" :=
  (((C4_cancel_order
      [{ number := "ORD1", symbol := "005930", type := "buy", qty := 10,
         order_price := some 50000, time_kst := none, pending_qty := 10,
         pending := true }]
      "ORD1").1
      { number := "ORD1", symbol := "005930", type := "buy", qty := 10,
        order_price := some 50000, time_kst := none, pending_qty := 10,
        pending := true }
      (by decide)).1 rfl).2

/-- C5 (corrected): the claim's status token `executed_or_unknown` is not what
the code returns when the backend's pending flag is false: the code's literal
is `executed_or_failed_or_unknown`. -/
theorem C5_counterexample :
    (place_stock_order "005930" Side.buy 10 (some 50000) Method.limit
        (fun _ => { number := "X1", pending := false })).status
      ≠ "executed_or_unknown" := by
  decide

/-- C5 (amended): the order result carries the backend's order number as
`order_id`; the status is `pending` when the backend reports a pending flag
and `executed_or_failed_or_unknown` otherwise; an empty order number yields the
submission-failure message; in particular the limit buy at 50000 × 10 with
backend number `X1` and pending flag true yields order id `X1` and status
`pending` (see the witness). -/
theorem C5_order_result (stock_code : String) (order_type : Side) (quantity : Int)
    (price : Option Int) (order_method : Method)
    (submit : OrderRequest → KisOrderResult) :
    ((place_stock_order stock_code order_type quantity price order_method submit).order_id
        = (submit (dispatchOrder order_type quantity price order_method)).number)
  ∧ ((submit (dispatchOrder order_type quantity price order_method)).pending = true →
      (place_stock_order stock_code order_type quantity price order_method submit).status
        = "pending")
  ∧ ((submit (dispatchOrder order_type quantity price order_method)).pending = false →
      (place_stock_order stock_code order_type quantity price order_method submit).status
        = "executed_or_failed_or_unknown")
  ∧ ((submit (dispatchOrder order_type quantity price order_method)).number = "" →
      (place_stock_order stock_code order_type quantity price order_method submit).message
        = submitFailMsg)
  ∧ ((submit (dispatchOrder order_type quantity price order_method)).number ≠ "" →
      (place_stock_order stock_code order_type quantity price order_method submit).message
        = submitOkMsg) := by
  refine ⟨rfl, fun h => ?_, fun h => ?_, fun h => ?_, fun h => ?_⟩
  · simp [place_stock_order, h]
  · simp [place_stock_order, h]
  · simp [place_stock_order, h]
  · simp [place_stock_order, h]

theorem C5_witness :
    (place_stock_order "005930" Side.buy 10 (some 50000) Method.limit
        (fun _ => { number := "X1", pending := true })).order_id = "X1"
  ∧ (place_stock_order "005930" Side.buy 10 (some 50000) Method.limit
        (fun _ => { number := "X1", pending := true })).status = "pending" :=
  ⟨(C5_order_result "005930" Side.buy 10 (some 50000) Method.limit
      (fun _ => { number := "X1", pending := true })).1,
    (C5_order_result "005930" Side.buy 10 (some 50000) Method.limit
      (fun _ => { number := "X1", pending := true })).2.1 rfl⟩

/-- C6: the market status is a total function of weekday and time of day:
weekends are `closed` at any time; on a weekday the phase is exactly the
interval containing the time of day between the boundaries 08:30 (30600 s),
09:00 (32400 s), 15:30 (55800 s) and 18:00 (64800 s), `closed` outside all of
them. -/
theorem C6_market_status (weekday tod : Nat) :
    (5 ≤ weekday → (get_market_status weekday tod).market_status = "closed")
  ∧ (weekday < 5 →
      (((get_market_status weekday tod).market_status = "premarket")
          ↔ (30600 ≤ tod ∧ tod < 32400))
      ∧ (((get_market_status weekday tod).market_status = "open")
          ↔ (32400 ≤ tod ∧ tod < 55800))
      ∧ (((get_market_status weekday tod).market_status = "aftermarket")
          ↔ (55800 ≤ tod ∧ tod < 64800))
      ∧ (((get_market_status weekday tod).market_status = "closed")
          ↔ (tod < 30600 ∨ 64800 ≤ tod))) := by
  constructor
  · intro h
    simp [get_market_status, h]
  · intro h
    have hw : ¬ (5 ≤ weekday) := by omega
    simp only [get_market_status, decide_eq_false hw, Bool.not_false]
    refine ⟨?_, ?_, ?_, ?_⟩ <;>
      · split_ifs <;> simp_all <;> omega

theorem C6_examples_witness :
    (get_market_status 5 3600).market_status = "closed"
  ∧ (get_market_status 0 25200).market_status = "closed"
  ∧ (get_market_status 0 31500).market_status = "premarket"
  ∧ (get_market_status 0 33300).market_status = "open"
  ∧ (get_market_status 0 57600).market_status = "aftermarket" :=
  ⟨(C6_market_status 5 3600).1 (by decide),
    (((C6_market_status 0 25200).2 (by decide)).2.2.2).mpr (Or.inl (by decide)),
    (((C6_market_status 0 31500).2 (by decide)).1).mpr (by decide),
    (((C6_market_status 0 33300).2 (by decide)).2.1).mpr (by decide),
    (((C6_market_status 0 57600).2 (by decide)).2.2.1).mpr (by decide)⟩

/-- C7 (corrected): `get_stock_quote` does not tolerate field absence: a quote
response missing `price` yields an error result, not a zero default. -/
theorem C7_counterexample :
    get_stock_quote "005930"
        { price := none, change := some 0, rate := some 0, volume := some 0,
          amount := some 0, market_cap := some 0, open_price := some 0,
          high := some 0, low := some 0 }
      = Except.error (Err.tool "AttributeError: price") := rfl

/-- C7 (amended): the field accesses the code guards tolerate absence with
zero/empty defaults (orderbook level price and volume, pending-order price and
time, daily-execution fields), but the quote accesses are unguarded: a missing
quote field surfaces as an error result instead of defaulting. -/
theorem C7_field_absence (e : RawOrderbookEntry) (o : PendingOrder)
    (stock_code : String) (quote : RawQuote) (ex : RawExecution) :
    (e.price = none → (obEntry e).price = 0)
  ∧ (e.volume = none → (obEntry e).quantity = 0)
  ∧ (o.order_price = none → (pendingOrderOut o).price = 0)
  ∧ (o.time_kst = none → (pendingOrderOut o).order_time = "N/A")
  ∧ (ex.price = none → (executionOut ex).price = 0)
  ∧ (quote.price = none →
      get_stock_quote stock_code quote
        = Except.error (Err.tool "AttributeError: price")) := by
  refine ⟨fun h => ?_, fun h => ?_, fun h => ?_, fun h => ?_, fun h => ?_, fun h => ?_⟩
  · simp [obEntry, h]
  · simp [obEntry, h]
  · simp [pendingOrderOut, h]
  · simp [pendingOrderOut, h]
  · simp [executionOut, h]
  · simp only [get_stock_quote, h, getattr_]
    rfl

theorem C7_witness :
    (obEntry { price := none, volume := some 5 }).price = 0
  ∧ (pendingOrderOut
      { number := "A1", symbol := "005930", type := "buy", qty := 1,
        order_price := none, time_kst := none, pending_qty := 1,
        pending := true }).price = 0
  ∧ get_stock_quote "000660"
      { price := none, change := none, rate := none, volume := none,
        amount := none, market_cap := none, open_price := none,
        high := none, low := none }
      = Except.error (Err.tool "AttributeError: price") :=
  ⟨(C7_field_absence { price := none, volume := some 5 }
      { number := "A1", symbol := "005930", type := "buy", qty := 1,
        order_price := none, time_kst := none, pending_qty := 1, pending := true }
      "000660"
      { price := none, change := none, rate := none, volume := none,
        amount := none, market_cap := none, open_price := none,
        high := none, low := none }
      { type := none, executed_qty := none, qty := none, price := none }).1 rfl,
    (C7_field_absence { price := none, volume := some 5 }
      { number := "A1", symbol := "005930", type := "buy", qty := 1,
        order_price := none, time_kst := none, pending_qty := 1, pending := true }
      "000660"
      { price := none, change := none, rate := none, volume := none,
        amount := none, market_cap := none, open_price := none,
        high := none, low := none }
      { type := none, executed_qty := none, qty := none, price := none }).2.2.1 rfl,
    (C7_field_absence { price := none, volume := some 5 }
      { number := "A1", symbol := "005930", type := "buy", qty := 1,
        order_price := none, time_kst := none, pending_qty := 1, pending := true }
      "000660"
      { price := none, change := none, rate := none, volume := none,
        amount := none, market_cap := none, open_price := none,
        high := none, low := none }
      { type := none, executed_qty := none, qty := none, price := none }).2.2.2.2.2 rfl⟩

/-- C8: against one fixed balance snapshot, the holding that matches the code
appears in the `get_account_balance` output with exactly its snapshot
quantity, and `get_sellable_quantity` for that code reports the same value as
`total_quantity`. -/
theorem C8_round_trip (balance : Balance) (pend : List PendingOrder)
    (stock_code : String) (s : BalanceStock)
    (hfind : balance.stocks.find? (fun x => x.symbol == stock_code) = some s) :
    (get_sellable_quantity balance pend stock_code).total_quantity = s.quantity
  ∧ holdingOut s ∈ (get_account_balance balance).holdings
  ∧ (holdingOut s).quantity = s.quantity := by
  refine ⟨?_, ?_, rfl⟩
  · simp [get_sellable_quantity, totalQuantityOf, hfind]
  · exact List.mem_map_of_mem holdingOut (List.mem_of_find?_eq_some hfind)

theorem C8_witness :
    (get_sellable_quantity
        { amount := 7, total := 7, withdrawable_amount := 0, current_amount := 7,
          stocks := [{ name := "SamsungElec", symbol := "005930",
                       quantity := 7, purchase_price := 1, current_price := 1,
                       current_amount := 7, profit := 0, profit_rate := 0 }] }
        [] "005930").total_quantity
      = ({ name := "SamsungElec", symbol := "005930", quantity := 7,
           purchase_price := 1, current_price := 1, current_amount := 7,
           profit := 0, profit_rate := 0 } : BalanceStock).quantity :=
  (C8_round_trip
    { amount := 7, total := 7, withdrawable_amount := 0, current_amount := 7,
      stocks := [{ name := "SamsungElec", symbol := "005930",
                   quantity := 7, purchase_price := 1, current_price := 1,
                   current_amount := 7, profit := 0, profit_rate := 0 }] }
    [] "005930"
    { name := "SamsungElec", symbol := "005930", quantity := 7,
      purchase_price := 1, current_price := 1, current_amount := 7,
      profit := 0, profit_rate := 0 }
    (by decide)).1

/-- C9: an input violating the declared constraints (code not exactly six
digits, date not of the ISO `YYYY-MM-DD` shape, non-positive quantity, present
negative price) is rejected by the invocation layer with a validation error
and the handler issues no brokerage-client call. -/
theorem C9_validation (stock_code : String) (quote : RawQuote) (order_type : Side)
    (quantity : Int) (price : Option Int) (order_method : Method)
    (submit : OrderRequest → KisOrderResult) (date : String)
    (execs : List RawExecution) :
    (validStockCode stock_code = false →
      run_get_stock_quote stock_code quote
        = (Except.error (Err.validation validationMsg), []))
  ∧ ((validStockCode stock_code = false ∨ quantity ≤ 0
        ∨ (∃ p, price = some p ∧ p < 0)) →
      run_place_stock_order stock_code order_type quantity price order_method submit
        = (Except.error (Err.validation validationMsg), []))
  ∧ (validDateStr date = false →
      run_get_daily_executions date execs
        = (Except.error (Err.validation validationMsg), [])) := by
  refine ⟨fun h => ?_, fun h => ?_, fun h => ?_⟩
  · simp [run_get_stock_quote, h]
  · rcases h with h | h | ⟨p, hp, hneg⟩
    · simp [run_place_stock_order, h]
    · simp [run_place_stock_order, decide_eq_false (not_lt.mpr h)]
    · subst hp
      simp [run_place_stock_order, decide_eq_false (not_le.mpr hneg)]
  · simp [run_get_daily_executions, h]

theorem C9_witness :
    run_get_stock_quote "12345"
        { price := some 0, change := some 0, rate := some 0, volume := some 0,
          amount := some 0, market_cap := some 0, open_price := some 0,
          high := some 0, low := some 0 }
      = (Except.error (Err.validation validationMsg), [])
  ∧ run_place_stock_order "005930" Side.buy 0 none Method.market
        (fun _ => { number := "", pending := false })
      = (Except.error (Err.validation validationMsg), [])
  ∧ run_get_daily_executions "2024/01/01" []
      = (Except.error (Err.validation validationMsg), []) :=
  ⟨(C9_validation "12345"
      { price := some 0, change := some 0, rate := some 0, volume := some 0,
        amount := some 0, market_cap := some 0, open_price := some 0,
        high := some 0, low := some 0 }
      Side.buy 1 none Method.market (fun _ => { number := "", pending := false })
      "2024-01-01" []).1 (by decide),
    (C9_validation "005930"
      { price := some 0, change := some 0, rate := some 0, volume := some 0,
        amount := some 0, market_cap := some 0, open_price := some 0,
        high := some 0, low := some 0 }
      Side.buy 0 none Method.market (fun _ => { number := "", pending := false })
      "2024-01-01" []).2.1 (Or.inr (Or.inl (by decide))),
    (C9_validation "005930"
      { price := some 0, change := some 0, rate := some 0, volume := some 0,
        amount := some 0, market_cap := some 0, open_price := some 0,
        high := some 0, low := some 0 }
      Side.buy 1 none Method.market (fun _ => { number := "", pending := false })
      "2024/01/01" []).2.2 (by decide)⟩

/-- C10: the result's `price` field is the supplied price whenever the method
is `limit` and the price is present — even when the actual submission degraded
to a market request — and the string `market` otherwise; in particular a limit
order at price 0 is dispatched as a market submission yet reported with price
0 and method `limit`. -/
theorem C10_result_price (stock_code : String) (order_type : Side)
    (quantity : Int) (price : Option Int) (order_method : Method)
    (submit : OrderRequest → KisOrderResult) :
    (∀ p : Int, order_method = Method.limit → price = some p →
      (place_stock_order stock_code order_type quantity price order_method submit).price
        = PriceField.val p)
  ∧ (price = none →
      (place_stock_order stock_code order_type quantity price order_method submit).price
        = PriceField.market)
  ∧ (order_method = Method.market →
      (place_stock_order stock_code order_type quantity price order_method submit).price
        = PriceField.market)
  ∧ (dispatchOrder order_type quantity (some 0) Method.limit
      = { side := order_type, qty := quantity, price := none })
  ∧ ((place_stock_order stock_code order_type quantity (some 0) Method.limit submit).price
      = PriceField.val 0)
  ∧ ((place_stock_order stock_code order_type quantity (some 0) Method.limit submit).order_method
      = Method.limit) := by
  refine ⟨fun p hm hp => ?_, fun hp => ?_, fun hm => ?_, ?_, rfl, rfl⟩
  · subst hm; subst hp; rfl
  · subst hp; cases order_method <;> rfl
  · subst hm; cases price <;> rfl
  · cases order_type <;> simp [dispatchOrder]

theorem C10_witness :
    (place_stock_order "005930" Side.buy 10 (some 50000) Method.limit
        (fun _ => { number := "X1", pending := true })).price = PriceField.val 50000
  ∧ (place_stock_order "005930" Side.sell 10 (some 0) Method.limit
        (fun _ => { number := "X2", pending := true })).price = PriceField.val 0 :=
  ⟨(C10_result_price "005930" Side.buy 10 (some 50000) Method.limit
      (fun _ => { number := "X1", pending := true })).1 50000 rfl rfl,
    (C10_result_price "005930" Side.sell 10 (some 0) Method.limit
      (fun _ => { number := "X2", pending := true })).2.2.2.2.1⟩

end KisMcp
